import Mathlib

set_option maxRecDepth 8000

/-!
Shallow embedding of the value / date-type core of the miniob repository slice:
`src/observer/common/type/date_type.{h,cpp}` and `src/observer/common/value.cpp`.

C++ `int` / `int32_t` arithmetic is modelled by unbounded `Int`; every claim
exercised here stays far inside the 32-bit range except where an explicit
wrap (`toInt32`) is applied at a narrowing conversion site.  C++ `%` and `/`
only occur in divisibility tests (where truncated and Euclidean conventions
agree) or are rendered with `Int.tdiv` (truncation toward zero) where the
convention matters.  While-loops are rendered as structural recursion on an
explicit fuel argument chosen far above the number of iterations the loop can
perform on the inputs the theorems quantify over; fuel-sufficiency is proved,
never assumed.  Text buffers are modelled as `Option (List Char)` (`none` is
the null pointer).
-/

/-! ### Enumerations (common/type/attr_type.h, common/rc.h; values used by the slice) -/

/-- Type tags of `Value` (the members of `AttrType` this slice uses). -/
inductive AttrType where
  | UNDEFINED
  | CHARS
  | INTS
  | FLOATS
  | BOOLEANS
  | DATES
deriving DecidableEq

/-- Return codes of the slice (the members of `RC` this slice uses). -/
inductive RC where
  | SUCCESS
  | INVALID_ARGUMENT
  | UNSUPPORTED
deriving DecidableEq

/-- Wrap of a mathematical integer into the signed 32-bit range, the effect of
a narrowing conversion to `int32_t` in the C++ (two's complement). -/
def toInt32 (x : Int) : Int := (x + 2147483648) % 4294967296 - 2147483648

/-! ### DateType static codec (date_type.cpp lines 91-254) -/

/-- DateType::is_leap_year (date_type.cpp:91): Gregorian rule.  The C++ `%`
is truncated; both conventions agree on the `= 0` / `≠ 0` tests used here. -/
def is_leap_year (year : Int) : Bool :=
  (year % 4 == 0 && year % 100 != 0) || (year % 400 == 0)

/-- Lookup in the static array `days[] = {0,31,28,31,30,31,30,31,31,30,31,30,31}`
of date_type.cpp:98 (and the identical `month_days[]` of lines 169 and 216). -/
def month_days (m : Int) : Int :=
  if m = 1 then 31 else if m = 2 then 28 else if m = 3 then 31
  else if m = 4 then 30 else if m = 5 then 31 else if m = 6 then 30
  else if m = 7 then 31 else if m = 8 then 31 else if m = 9 then 30
  else if m = 10 then 31 else if m = 11 then 30 else if m = 12 then 31 else 0

/-- DateType::days_in_month (date_type.cpp:96). -/
def days_in_month (year month : Int) : Int :=
  if month < 1 || month > 12 then 0
  else if month = 2 && is_leap_year year then 29
  else month_days month

/-- DateType::is_valid_date (date_type.cpp:111). -/
def is_valid_date (year month day : Int) : Bool :=
  if year < 1 || month < 1 || month > 12 || day < 1 then false
  else day ≤ days_in_month year month

/-- Loop guard of the pre-epoch branch of date_to_days (date_type.cpp:139-148):
the current date is strictly before 1970-01-01. -/
def before_epoch (y m d : Int) : Bool :=
  y < 1970 || (y == 1970 && m < 1) || (y == 1970 && m == 1 && d < 1)

/-- Body of the pre-epoch loop of date_to_days (date_type.cpp:149-157):
advance the date by one day (`d++` with month/year carry). -/
def next_day (y m d : Int) : Int × Int × Int :=
  let d' := d + 1
  if d' > days_in_month y m then
    let m' := m + 1
    if m' > 12 then (y + 1, 1, 1) else (y, m', 1)
  else (y, m, d')

/-- Pre-epoch while-loop of date_to_days (date_type.cpp:147-159), recursion on
fuel: step the date forward one day and decrement the accumulator until the
date is no longer before the epoch.  The loop runs at most `absDay` of the
epoch (719162) times on any valid date; `negFuel` is far above that. -/
def neg_loop : Nat → Int → Int → Int → Int → Int
  | 0, _, _, _, total => total
  | fuel + 1, y, m, d, total =>
    if before_epoch y m d then
      match next_day y m d with
      | (y', m', d') => neg_loop fuel y' m' d' (total - 1)
    else total

/-- Fuel for `neg_loop`, above the largest possible iteration count. -/
def negFuel : Nat := 800000

/-- Year accumulation loop of date_to_days (date_type.cpp:164-166):
`for (y = start; y < start + n; y++) total += leap ? 366 : 365`, rendered as
recursion on the iteration count `n`. -/
def years_from (y : Int) : Nat → Int
  | 0 => 0
  | n + 1 => (if is_leap_year y then 366 else 365) + years_from (y + 1) n

/-- Month accumulation loop of date_to_days (date_type.cpp:170-175):
sum of `month_days[m]` plus the February leap correction for `m = 1..k`. -/
def months_before (year : Int) : Nat → Int
  | 0 => 0
  | k + 1 =>
    months_before year k + month_days ((k : Int) + 1) +
      (if (k : Int) + 1 = 2 ∧ is_leap_year year then 1 else 0)

/-- DateType::date_to_days (date_type.cpp:121-183). -/
def date_to_days (year month day : Int) : Int :=
  if ¬ is_valid_date year month day then -2147483648
  else if before_epoch year month day then
    neg_loop negFuel year month day 0
  else
    years_from 1970 (year - 1970).toNat + months_before year (month - 1).toNat + (day - 1)

/-- Body of the backward walk of days_to_date (date_type.cpp:239-250):
step the date back one day (`day--` with month/year borrow). -/
def prev_day (y m d : Int) : Int × Int × Int :=
  let d' := d - 1
  if d' < 1 then
    let m' := m - 1
    if m' < 1 then (y - 1, 12, days_in_month (y - 1) 12)
    else (y, m', days_in_month y m')
  else (y, m, d')

/-- Backward walk of days_to_date for negative inputs (date_type.cpp:236-250):
apply `prev_day` `n` times starting from the epoch.  The loop counter
`remaining_days = -days` is the recursion structure itself, so no fuel. -/
def back_walk : Nat → Int × Int × Int → Int × Int × Int
  | 0, x => x
  | n + 1, (y, m, d) => back_walk n (prev_day y m d)

/-- Year-subtraction loop of days_to_date (date_type.cpp:205-213), recursion on
fuel; returns (remaining_days, year).  At most one iteration per 365 days of
input, so `yearFuel` covers the whole int32 input range. -/
def ytd_year_loop : Nat → Int → Int → Int × Int
  | 0, remaining, year => (remaining, year)
  | fuel + 1, remaining, year =>
    if remaining > 0 then
      let yd := if is_leap_year year then 366 else 365
      if remaining ≥ yd then ytd_year_loop fuel (remaining - yd) (year + 1)
      else (remaining, year)
    else (remaining, year)

/-- Fuel for `ytd_year_loop`, above one iteration per 365 days of `INT32_MAX`. -/
def yearFuel : Nat := 6000000

/-- Month-subtraction loop of days_to_date (date_type.cpp:216-230), recursion on
fuel; returns (remaining_days, month).  The loop advances `month` each
iteration under the guard `month <= 12`, so 13 units of fuel always suffice
(exhausted fuel and a failed guard return the same pair). -/
def ytd_month_loop : Nat → Int → Int → Int → Int × Int
  | 0, remaining, month, _year => (remaining, month)
  | fuel + 1, remaining, month, year =>
    if month ≤ 12 ∧ remaining > 0 then
      let cur := if month = 2 ∧ is_leap_year year then 29 else month_days month
      if remaining ≥ cur then ytd_month_loop fuel (remaining - cur) (month + 1) year
      else (remaining, month)
    else (remaining, month)

/-- DateType::days_to_date (date_type.cpp:185-254); the three out-parameters
are returned as a triple (year, month, day). -/
def days_to_date (days : Int) : Int × Int × Int :=
  if days = 0 then (1970, 1, 1)
  else if days > 0 then
    match ytd_year_loop yearFuel days 1970 with
    | (remaining, year) =>
      match ytd_month_loop 13 remaining 1 year with
      | (remaining2, month) => (year, month, remaining2 + 1)
  else back_walk (-days).toNat (1970, 1, 1)

example : is_leap_year 2000 = true ∧ is_leap_year 1900 = false := by decide
example : date_to_days 1970 1 1 = 0 := by decide
example : date_to_days 1969 12 31 = -1 := by decide
example : date_to_days 2000 2 29 = date_to_days 2000 3 1 - 1 := by decide
example : days_to_date 0 = (1970, 1, 1) := by decide
example : days_to_date (-1) = (1969, 12, 31) := by decide
example : days_to_date (date_to_days 2024 3 5) = (2024, 3, 5) := by decide
example : days_to_date (date_to_days 1969 1 1) = (1969, 1, 1) := by decide

/-! ### Numeric text scanning (models of sscanf "%d" fields and std::stol / std::stof) -/

/-- Decimal value of a digit string. -/
def digitsToNat (ds : List Char) : Nat :=
  ds.foldl (fun a c => a * 10 + (c.toNat - 48)) 0

/-- Digit part of a scanned integer: up to `w` digits when a field width is
given, at least one digit, with the sign already consumed. -/
def scanDigits (sign : Int) (w : Option Nat) (s : List Char) : Option (Int × List Char) :=
  let all := s.takeWhile Char.isDigit
  let digs := match w with
    | none => all
    | some k => all.take k
  if digs = [] then none
  else some (sign * (digitsToNat digs : Int), s.drop digs.length)

/-- One unit of field width consumed (by a sign character). -/
def decWidth : Option Nat → Option Nat
  | none => none
  | some k => some (k - 1)

/-- Model of one `%d` / `%wd` conversion (also of `std::stol`, which has the
same lexical behaviour: skip whitespace, optional sign, decimal digits).
`none` is a matching/conversion failure. -/
def scanIntW (w : Option Nat) (cs : List Char) : Option (Int × List Char) :=
  let s1 := cs.dropWhile Char.isWhitespace
  match s1 with
  | '-' :: rest => scanDigits (-1) (decWidth w) rest
  | '+' :: rest => scanDigits 1 (decWidth w) rest
  | _ => scanDigits 1 w s1

/-- Model of `sscanf(s, "%d-%d-%d", ...)` with optional field widths: the
number of fields matched and the three fields.  A field `sscanf` did not
match is left uninitialized in the C++; it is modelled as 0 here and no
theorem depends on such a field's value. -/
def sscanf3 (w1 w2 w3 : Option Nat) (s : List Char) : Nat × Int × Int × Int :=
  match scanIntW w1 s with
  | none => (0, 0, 0, 0)
  | some (a, r1) =>
    match r1 with
    | '-' :: r2 =>
      match scanIntW w2 r2 with
      | none => (1, a, 0, 0)
      | some (b, r3) =>
        match r3 with
        | '-' :: r4 =>
          match scanIntW w3 r4 with
          | none => (2, a, b, 0)
          | some (c, _) => (3, a, b, c)
        | _ => (2, a, b, 0)
    | _ => (1, a, 0, 0)

/-- Model of `std::stol` on the payload text: `none` models the
`invalid_argument` exception (no digits to convert). -/
def stol_opt (s : List Char) : Option Int :=
  (scanIntW none s).map (fun p => p.1)

/-- Exponent part of a float literal; not consumed (exponent 0) when no digit
follows the `e`. -/
def scanExp (r : List Char) : Int :=
  match r with
  | '-' :: r2 => if r2.takeWhile Char.isDigit = [] then 0
                 else -(digitsToNat (r2.takeWhile Char.isDigit) : Int)
  | '+' :: r2 => if r2.takeWhile Char.isDigit = [] then 0
                 else (digitsToNat (r2.takeWhile Char.isDigit) : Int)
  | _ => if r.takeWhile Char.isDigit = [] then 0
         else (digitsToNat (r.takeWhile Char.isDigit) : Int)

/-- Model of `std::stof` on the payload text, with the C++ float value modelled
as an exact rational (no claim exercises rounding): longest prefix of the
shape `[ws][sign]digits[.digits][e[sign]digits]`; `none` models the
`invalid_argument` exception (no digits at all; the hex/inf/nan forms are not
exercised by any claim and are not modelled). -/
def stof_opt (s : List Char) : Option Rat :=
  let s1 := s.dropWhile Char.isWhitespace
  let sgn : Rat := match s1 with
    | '-' :: _ => -1
    | _ => 1
  let s2 := match s1 with
    | '-' :: r => r
    | '+' :: r => r
    | _ => s1
  let ip := s2.takeWhile Char.isDigit
  let r1 := s2.drop ip.length
  let fp := match r1 with
    | '.' :: r => r.takeWhile Char.isDigit
    | _ => []
  let r2 := match r1 with
    | '.' :: r => r.drop (r.takeWhile Char.isDigit).length
    | _ => r1
  if ip = [] ∧ fp = [] then none
  else
    let mant : Rat := (digitsToNat ip : Rat) + (digitsToNat fp : Rat) / ((10 : Rat) ^ fp.length)
    let ex : Int := match r2 with
      | 'e' :: r => scanExp r
      | 'E' :: r => scanExp r
      | _ => 0
    some (sgn * mant * (10 : Rat) ^ ex)

example : stol_opt ("abc".toList) = none := by decide
example : stol_opt ("  -42x".toList) = some (-42) := by decide
example : stof_opt ("abc".toList) = none := by decide

/-! ### Value (common/value.cpp; the class layout is from common/value.h,
which is not under src/ — the spec's §3 data model gives the same four
fields: tag, length, ownership flag, union payload) -/

/-- Union payload of `Value` (`int_value_`, `float_value_`, `bool_value_`,
`pointer_value_` share storage in the C++; here an inductive).  The C++ float
is modelled as an exact rational: no claim exercises rounding.  `vptr none`
is a null `pointer_value_`. -/
inductive UnionVal where
  | vint (i : Int)
  | vfloat (q : Rat)
  | vbool (b : Bool)
  | vptr (p : Option (List Char))
  | undef
deriving DecidableEq

/-- The `Value` container: tag, byte length, ownership flag, union payload. -/
structure Value where
  attr_type_ : AttrType
  length_ : Int
  own_data_ : Bool
  value_ : UnionVal
deriving DecidableEq

/-- Default-constructed `Value` (spec §3: default-constructed as Undefined;
the constructor body is in value.h, not under src/). -/
def Value.mkDefault : Value := ⟨.UNDEFINED, 0, false, .undef⟩

/-- Read of `*(int32_t *)v.data()` (value.cpp:238, date_type.cpp:31): for a
non-CHARS tag `data()` points into the union; the claims only exercise this
on values whose union holds the int member, so the type-punned reads of the
other members are modelled as 0. -/
def readInt32 (v : Value) : Int :=
  match v.value_ with
  | .vint i => i
  | _ => 0

/-- Stored bytes of a CHARS payload (empty for a null pointer). -/
def Value.chars_bytes (v : Value) : List Char :=
  match v.value_ with
  | .vptr (some s) => s
  | _ => []

/-- Value::reset (value.cpp:101-116).  The Bool records whether the
`delete[]` of an owned buffer ran (the CHARS-and-owning-and-non-null case);
the released pointer is nulled, everything else of the union is untouched,
and tag/length/ownership drop to Undefined/0/false. -/
def Value.reset (v : Value) : Value × Bool :=
  match v.attr_type_ with
  | .CHARS =>
    let rel := v.own_data_ && (match v.value_ with | .vptr (some _) => true | _ => false)
    (⟨.UNDEFINED, 0, false, if rel then .vptr none else v.value_⟩, rel)
  | _ => (⟨.UNDEFINED, 0, false, v.value_⟩, false)

/-- Value::set_int (value.cpp:146-152): reset, then tag INTS, int payload,
length `sizeof(int) = 4`.  The Bool is the reset's release record. -/
def Value.set_int (v : Value) (x : Int) : Value × Bool :=
  (⟨.INTS, 4, false, .vint x⟩, (v.reset).2)

/-- Value::set_float (value.cpp:154-160). -/
def Value.set_float (v : Value) (x : Rat) : Value × Bool :=
  (⟨.FLOATS, 4, false, .vfloat x⟩, (v.reset).2)

/-- Value::set_boolean (value.cpp:161-167); length `sizeof(bool) = 1`. -/
def Value.set_boolean (v : Value) (x : Bool) : Value × Bool :=
  (⟨.BOOLEANS, 1, false, .vbool x⟩, (v.reset).2)

/-- Value::set_date (value.cpp:375-381): reset, tag DATES, day count in the
int member, length 4. -/
def Value.set_date (v : Value) (x : Int) : Value × Bool :=
  (⟨.DATES, 4, false, .vint x⟩, (v.reset).2)

/-- Value::set_string (value.cpp:169-188): reset, tag CHARS; a null source
leaves a null pointer and length 0 (ownership stays false after the reset);
otherwise a fresh buffer of `strnlen(s, len)` (for `len > 0`) or `strlen(s)`
bytes is owned.  `strnlen`/`strlen` are `min length len` / `length` for the
NUL-free texts the claims use. -/
def Value.set_string (v : Value) (s : Option (List Char)) (len : Int) : Value × Bool :=
  let rel := (v.reset).2
  match s with
  | none => (⟨.CHARS, 0, false, .vptr none⟩, rel)
  | some str =>
    let n : Nat := if len > 0 then min str.length len.toNat else str.length
    (⟨.CHARS, (n : Int), true, .vptr (some (str.take n))⟩, rel)

/-- Value::set_string_from_other (value.cpp:228-236): with tag/length/flag
already copied from `other`, duplicate `other`'s buffer into a fresh one of
`length_` bytes when this value owns data and `other`'s pointer is non-null
and the length is non-zero; otherwise the union is left as it was. -/
def Value.set_string_from_other (v other : Value) : Value :=
  if v.own_data_ &&
      (match other.value_ with | .vptr (some _) => true | _ => false) &&
      !(v.length_ == 0) then
    ⟨v.attr_type_, v.length_, v.own_data_, .vptr (some (other.chars_bytes.take v.length_.toNat))⟩
  else v

/-- Value move constructor (value.cpp:55-63): the pair (constructed value,
moved-from source); the source keeps its tag and union but drops ownership
and length. -/
def Value.move_ctor (s : Value) : Value × Value :=
  (⟨s.attr_type_, s.length_, s.own_data_, s.value_⟩, ⟨s.attr_type_, 0, false, s.value_⟩)

/-- Value move assignment (value.cpp:86-99), non-self case (the `this == &other`
short-circuit compares object addresses, which value semantics cannot
express): reset the target (the Bool records the release), take all four
fields, neutralize the source.  The triple is (new target, moved-from
source, released). -/
def Value.move_assign (t s : Value) : Value × Value × Bool :=
  match t.reset with
  | (_, rel) =>
    (⟨s.attr_type_, s.length_, s.own_data_, s.value_⟩, ⟨s.attr_type_, 0, false, s.value_⟩, rel)

/-- Value copy assignment (value.cpp:65-84), non-self case: reset the target,
copy tag/length/flag, then for CHARS run set_string_from_other (the union
otherwise keeps the post-reset bits), for every other tag copy the union. -/
def Value.copy_assign (t s : Value) : Value × Bool :=
  match t.reset with
  | (t1, rel) =>
    let t2 : Value := ⟨s.attr_type_, s.length_, s.own_data_, t1.value_⟩
    match s.attr_type_ with
    | .CHARS => (t2.set_string_from_other s, rel)
    | _ => (⟨t2.attr_type_, t2.length_, t2.own_data_, s.value_⟩, rel)

/-- EPSILON of common/value.h (not under src/): the float comparison
tolerance 1e-6, modelled exactly; no claim theorem depends on its value
(it sits on paths the claims never reach with parsed floats). -/
def EPSILON : Rat := 1 / 1000000

/-- Truncation of a float toward zero, the effect of `(int)` on the modelled
rational. -/
def ratTrunc (q : Rat) : Int := Int.tdiv q.num (q.den : Int)

/-- Value::get_int (value.cpp:263-292): CHARS goes through `stol` with the
`invalid_argument` catch returning 0 (a null pointer passed to `stol` is UB
in the C++ and unreachable from the claims; modelled as 0). -/
def Value.get_int (v : Value) : Int :=
  match v.attr_type_ with
  | .CHARS =>
    match v.value_ with
    | .vptr (some s) =>
      match stol_opt s with
      | some i => toInt32 i
      | none => 0
    | _ => 0
  | .INTS => (match v.value_ with | .vint i => i | _ => 0)
  | .FLOATS => (match v.value_ with | .vfloat q => ratTrunc q | _ => 0)
  | .BOOLEANS => (match v.value_ with | .vbool b => if b then 1 else 0 | _ => 0)
  | .DATES => (match v.value_ with | .vint i => i | _ => 0)
  | _ => 0

/-- Value::get_float (value.cpp:294-323): CHARS goes through `stof` with the
catch returning 0.0. -/
def Value.get_float (v : Value) : Rat :=
  match v.attr_type_ with
  | .CHARS =>
    match v.value_ with
    | .vptr (some s) =>
      match stof_opt s with
      | some q => q
      | none => 0
    | _ => 0
  | .INTS => (match v.value_ with | .vint i => (i : Rat) | _ => 0)
  | .FLOATS => (match v.value_ with | .vfloat q => q | _ => 0)
  | .BOOLEANS => (match v.value_ with | .vbool b => if b then 1 else 0 | _ => 0)
  | .DATES => (match v.value_ with | .vint i => (i : Rat) | _ => 0)
  | _ => 0

/-- Value::get_boolean (value.cpp:333-373).  For CHARS the try-block tests
`stof` against EPSILON, then `stol` against 0, and both the in-try fallthrough
and the catch return `pointer_value_ != nullptr`; so a non-null text that
parses as no nonzero number still yields true. -/
def Value.get_boolean (v : Value) : Bool :=
  match v.attr_type_ with
  | .CHARS =>
    match v.value_ with
    | .vptr (some s) =>
      (match stof_opt s with
       | some q =>
         if q ≥ EPSILON ∨ q ≤ -EPSILON then true
         else
           (match stol_opt s with
            | some i => if i ≠ 0 then true else true
            | none => true)
       | none => true)
    | _ => false
  | .INTS => (match v.value_ with | .vint i => decide (i ≠ 0) | _ => false)
  | .FLOATS =>
    (match v.value_ with
     | .vfloat q => decide (q ≥ EPSILON ∨ q ≤ -EPSILON)
     | _ => false)
  | .BOOLEANS => (match v.value_ with | .vbool b => b | _ => false)
  | .DATES => (match v.value_ with | .vint i => decide (i ≠ 0) | _ => false)
  | _ => false

/-- Value::set_value (value.cpp:203-226): dispatch on the source tag; DATES
copies the day count through set_int and then restores the DATES tag.  The
CHARS case goes through `get_string().c_str()`, which for a CHARS source is
its stored bytes (the Text stringify lives in char_type.cpp, not under src/;
modelled from the spec as rendering the payload bytes).  The Bool is the
reset's release record of the branch taken. -/
def Value.set_value (v other : Value) : Value × Bool :=
  match other.attr_type_ with
  | .INTS => v.set_int other.get_int
  | .FLOATS => v.set_float other.get_float
  | .CHARS => v.set_string (some other.chars_bytes) 0
  | .BOOLEANS => v.set_boolean other.get_boolean
  | .DATES =>
    match v.set_int other.get_int with
    | (v1, rel) => (⟨.DATES, v1.length_, v1.own_data_, v1.value_⟩, rel)
  | _ => (v, false)

/-! ### DateType member operations (date_type.cpp lines 21-88, 256-294) -/

/-- DateType::compare on two Values (date_type.cpp:21-41): INT32_MAX on a tag
mismatch (after the debug-only assert), else -1/0/1 on the stored day
counts. -/
def DateType.compare (left right : Value) : Int :=
  if ¬ (left.attr_type_ = .DATES ∧ right.attr_type_ = .DATES) then 2147483647
  else
    let left_days := readInt32 left
    let right_days := readInt32 right
    if left_days < right_days then -1
    else if left_days > right_days then 1
    else 0

/-- Modelled from the spec: storage/common/column.h is not under src/.  Spec
§6: a Date column's wire format is "an array of fixed-width int32 day counts,
laid out contiguously, indexable by row offset". -/
structure Column where
  attr_type_ : AttrType
  data_ : List Int

/-- Modelled from the spec: common::compare_int (common/lang/comparator.h) is
not under src/.  Spec §4.3: the columnar comparison has the "same semantics"
as the scalar compare and "must produce identical ordering", whose Date
result is -1/0/1 on the two ints. -/
def compare_int (a b : Int) : Int :=
  if a < b then -1 else if a > b then 1 else 0

/-- DateType::compare on two Columns at row offsets (date_type.cpp:43-52):
read the int32 day counts at the offsets and hand them to compare_int.
Offsets are Nat (a negative C++ index is out-of-bounds UB); an out-of-range
read is UB in the C++ and the theorems constrain the offsets to be in
range. -/
def DateType.compare_col (left right : Column) (left_idx right_idx : Nat) : Int :=
  compare_int (left.data_.getD left_idx 0) (right.data_.getD right_idx 0)

/-- Decimal rendering of `%0wd` (snprintf, date_type.cpp:269): zero-padded to
width `w`, sign included in the width. -/
def padInt (w : Nat) (x : Int) : List Char :=
  if x < 0 then
    '-' :: (List.replicate (w - 1 - (Nat.toDigits 10 (-x).toNat).length) '0'
      ++ Nat.toDigits 10 (-x).toNat)
  else
    List.replicate (w - (Nat.toDigits 10 x.toNat).length) '0' ++ Nat.toDigits 10 x.toNat

/-- DateType::to_string (date_type.cpp:256-272): INVALID_ARGUMENT on a
non-Date value (the result string unchanged, here empty), else the stored
day count decoded through days_to_date and rendered `%04d-%02d-%02d`. -/
def DateType.to_string (val : Value) : RC × List Char :=
  if val.attr_type_ ≠ .DATES then (RC.INVALID_ARGUMENT, [])
  else
    match days_to_date (readInt32 val) with
    | (year, month, day) =>
      (RC.SUCCESS, padInt 4 year ++ '-' :: (padInt 2 month ++ '-' :: padInt 2 day))

/-- DateType::cast_to (date_type.cpp:54-78): INVALID_ARGUMENT for a non-Date
source (result untouched); to DATES a copy via Value::set_value; to CHARS the
to_string rendering stored via Value::set_string; every other target
UNSUPPORTED (result untouched). -/
def DateType.cast_to (val : Value) (type : AttrType) (result : Value) : RC × Value :=
  if val.attr_type_ ≠ .DATES then (RC.INVALID_ARGUMENT, result)
  else
    match type with
    | .DATES => (RC.SUCCESS, (result.set_value val).1)
    | .CHARS =>
      match DateType.to_string val with
      | (rc, str) =>
        if rc ≠ RC.SUCCESS then (rc, result)
        else (RC.SUCCESS, (result.set_string (some str) 0).1)
    | _ => (RC.UNSUPPORTED, result)

/-- Modelled from the spec: common::DateTime::julian_date and
JULIAN_19700101 (common/time/datetime.h) are not under src/.  The spec fixes
only that a Date payload is "a signed day offset from a fixed epoch
(1970-01-01)" (§3, glossary), so the Julian day number is modelled by the
standard Fliegel-Van Flandern Gregorian formula with C truncated division;
JULIAN_19700101 is its value at the epoch. -/
def julian_date (y m d : Int) : Int :=
  Int.tdiv (1461 * (y + 4800 + Int.tdiv (m - 14) 12)) 4
    + Int.tdiv (367 * (m - 2 - 12 * Int.tdiv (m - 14) 12)) 12
    - Int.tdiv (3 * (Int.tdiv (y + 4900 + Int.tdiv (m - 14) 12) 100)) 4
    + d - 32075

/-- Julian day number of 1970-01-01. -/
def JULIAN_19700101 : Int := 2440588

example : julian_date 1970 1 1 = JULIAN_19700101 := by decide
example : julian_date 2024 3 5 - JULIAN_19700101 = date_to_days 2024 3 5 := by decide

/-- DateType::set_value_from_str (date_type.cpp:80-88): `sscanf("%d-%d-%d")`
with the match count ignored, the Julian-difference encoding, an
unconditional Value::set_date and an unconditional RC::SUCCESS.  No parse
check, no is_valid_date call, no failure path; on a partial sscanf match the
C++ reads uninitialized ints (modelled 0, no theorem depends on them).  The
`long long` day difference narrows to int32 at set_date. -/
def DateType.set_value_from_str (val : Value) (data : List Char) : RC × Value :=
  match sscanf3 none none none data with
  | (_, year, month, day) =>
    let julian := julian_date year month day
    let days := julian - JULIAN_19700101
    (RC.SUCCESS, (val.set_date (toInt32 days)).1)

/-- DateType::parse_date_string (date_type.cpp:276-294), the strict
`^\s*(\d{4})-(\d{1,2})-(\d{1,2})\s*$` parser: it is defined in the source but
called by nothing under src/.  The stoi of 4- and 2-digit groups cannot
throw, so the catch path is dead. -/
def DateType.parse_date_string (date_str : List Char) : RC × Int × Int × Int :=
  let s1 := date_str.dropWhile Char.isWhitespace
  let yd := s1.takeWhile Char.isDigit
  let r1 := s1.drop yd.length
  if yd.length ≠ 4 then (RC.INVALID_ARGUMENT, 0, 0, 0)
  else
    match r1 with
    | '-' :: r2 =>
      let md := r2.takeWhile Char.isDigit
      let r3 := r2.drop md.length
      if md.length < 1 ∨ md.length > 2 then (RC.INVALID_ARGUMENT, 0, 0, 0)
      else
        match r3 with
        | '-' :: r4 =>
          let dd := r4.takeWhile Char.isDigit
          let r5 := r4.drop dd.length
          if dd.length < 1 ∨ dd.length > 2 then (RC.INVALID_ARGUMENT, 0, 0, 0)
          else if r5.dropWhile Char.isWhitespace ≠ [] then (RC.INVALID_ARGUMENT, 0, 0, 0)
          else (RC.SUCCESS, (digitsToNat yd : Int), (digitsToNat md : Int), (digitsToNat dd : Int))
        | _ => (RC.INVALID_ARGUMENT, 0, 0, 0)
    | _ => (RC.INVALID_ARGUMENT, 0, 0, 0)

/-- Date-plausibility lambda `check_date` inside Value::try_set_date_from_string
(value.cpp:418-443), verbatim: note the upper cutoff rejects only
`year > 2038 && month >= 2`. -/
def check_date (year month day : Int) : Bool :=
  if year < 1970 ∨ (year > 2038 ∧ month ≥ 2) then false
  else if month < 1 ∨ month > 12 then false
  else if day < 1 ∨ day > 31 then false
  else if month = 2 then
    (if (year % 4 == 0 && year % 100 != 0) || (year % 400 == 0) then day ≤ 29 else day ≤ 28)
  else if month = 4 ∨ month = 6 ∨ month = 9 ∨ month = 11 then day ≤ 30
  else true

/-- Value::try_set_date_from_string (value.cpp:410-455): a fresh Value; empty
input (len 0; a null `s` is the same branch and has no List representation)
becomes the null date -1; otherwise `sscanf("%4d-%2d-%2d")` into ints
initialized to 0, then check_date decides between the Julian-difference date
encoding and storing the raw text as a string.  (The C++ returns the Value
by owning pointer; modelled as the Value itself.) -/
def Value.try_set_date_from_string (s : List Char) (len : Nat) : Value :=
  if len = 0 then (Value.mkDefault.set_date (-1)).1
  else
    match sscanf3 (some 4) (some 2) (some 2) s with
    | (_, year, month, day) =>
      if check_date year month day then
        (Value.mkDefault.set_date (toInt32 (julian_date year month day - JULIAN_19700101))).1
      else (Value.mkDefault.set_string (some s) (len : Int)).1

example : (DateType.set_value_from_str Value.mkDefault ("2024-13-01".toList)).1 = RC.SUCCESS := by
  decide
example : DateType.parse_date_string ("2024-13-01".toList) =
    (RC.SUCCESS, 2024, 13, 1) := by decide
example : DateType.parse_date_string ("2024/03/05".toList) =
    (RC.INVALID_ARGUMENT, 0, 0, 0) := by decide
example : (Value.try_set_date_from_string ("2050-01-15".toList) 10).attr_type_ =
    AttrType.DATES := by decide
example : (Value.try_set_date_from_string ("1969-12-31".toList) 10).attr_type_ =
    AttrType.CHARS := by decide
example : Value.try_set_date_from_string [] 0 =
    ⟨AttrType.DATES, 4, false, .vint (-1)⟩ := by decide

/-! ### Calendar linearization: an absolute day rank on valid dates, used to
relate the iterative loops of date_to_days and days_to_date to each other. -/

/-- Day length of a calendar year (the `is_leap_year(y) ? 366 : 365` of the
loops). -/
def yearLen (y : Int) : Int := if is_leap_year y then 366 else 365

/-- Days in calendar years 1..n. -/
def cumY : Nat → Int
  | 0 => 0
  | n + 1 => cumY n + yearLen ((n : Int) + 1)

/-- Days in the `n` consecutive months starting at month `m` of year `y`
(the callers keep `m + n - 1 ≤ 12`). -/
def dims_from (y : Int) (m : Int) : Nat → Int
  | 0 => 0
  | n + 1 => days_in_month y m + dims_from y (m + 1) n

/-- Absolute day rank of a calendar date: full years before `y`, full months
of `y` before `m`, then `d - 1`. -/
def absDay (y m d : Int) : Int :=
  cumY (y - 1).toNat + dims_from y 1 (m - 1).toNat + (d - 1)

/-- Rank of the epoch 1970-01-01. -/
def absEpoch : Int := cumY 1969

/-- Calendar validity as a proposition (the content of is_valid_date). -/
def ValidDate (y m d : Int) : Prop :=
  1 ≤ y ∧ 1 ≤ m ∧ m ≤ 12 ∧ 1 ≤ d ∧ d ≤ days_in_month y m

lemma is_valid_date_iff {y m d : Int} : is_valid_date y m d = true ↔ ValidDate y m d := by
  unfold is_valid_date ValidDate
  split
  · rename_i h
    simp only [Bool.or_eq_true, decide_eq_true_eq] at h
    constructor
    · intro hf
      exact absurd hf (by simp)
    · intro hv
      omega
  · rename_i h
    simp only [Bool.or_eq_true, decide_eq_true_eq, not_or] at h
    simp only [decide_eq_true_eq]
    omega

lemma before_epoch_iff {y m d : Int} (h : ValidDate y m d) :
    before_epoch y m d = true ↔ y < 1970 := by
  obtain ⟨h1, h2, h3, h4, h5⟩ := h
  unfold before_epoch
  simp only [Bool.or_eq_true, Bool.and_eq_true, decide_eq_true_eq, beq_iff_eq]
  omega

lemma month_days_bounds {m : Int} (h1 : 1 ≤ m) (h2 : m ≤ 12) :
    28 ≤ month_days m ∧ month_days m ≤ 31 := by
  have hm : m = 1 ∨ m = 2 ∨ m = 3 ∨ m = 4 ∨ m = 5 ∨ m = 6 ∨ m = 7 ∨ m = 8 ∨ m = 9 ∨
      m = 10 ∨ m = 11 ∨ m = 12 := by omega
  rcases hm with h | h | h | h | h | h | h | h | h | h | h | h <;> subst h <;> decide

lemma days_in_month_out {y m : Int} (h : m < 1 ∨ 12 < m) : days_in_month y m = 0 := by
  unfold days_in_month
  rw [if_pos]
  simp only [Bool.or_eq_true, decide_eq_true_eq]
  omega

lemma days_in_month_two (y : Int) :
    days_in_month y 2 = if is_leap_year y then 29 else 28 := by
  unfold days_in_month
  rw [if_neg (by decide)]
  cases h : is_leap_year y
  · rw [if_neg (by simp [h]), if_neg (by simp [h])]
    decide
  · rw [if_pos (by simp [h]), if_pos (by simp [h])]

lemma days_in_month_ne_two {y m : Int} (h1 : 1 ≤ m) (h2 : m ≤ 12) (h3 : m ≠ 2) :
    days_in_month y m = month_days m := by
  unfold days_in_month
  rw [if_neg (by simp only [Bool.or_eq_true, decide_eq_true_eq]; omega),
    if_neg (by simp only [Bool.and_eq_true, decide_eq_true_eq]; exact fun hc => h3 hc.1)]

lemma days_in_month_bounds {y m : Int} (h1 : 1 ≤ m) (h2 : m ≤ 12) :
    28 ≤ days_in_month y m ∧ days_in_month y m ≤ 31 := by
  by_cases hm : m = 2
  · subst hm
    rw [days_in_month_two]
    split <;> omega
  · rw [days_in_month_ne_two h1 h2 hm]
    exact month_days_bounds h1 h2

lemma days_in_month_nonneg (y m : Int) : 0 ≤ days_in_month y m := by
  by_cases h : m < 1 ∨ 12 < m
  · rw [days_in_month_out h]
  · have := days_in_month_bounds (y := y) (m := m) (by omega) (by omega)
    omega

lemma month_days_adj {y m : Int} (h1 : 1 ≤ m) (h2 : m ≤ 12) :
    month_days m + (if m = 2 ∧ is_leap_year y then 1 else 0) = days_in_month y m := by
  by_cases hm : m = 2
  · subst hm
    rw [days_in_month_two]
    cases h : is_leap_year y
    · rw [if_neg (by simp [h])]
      decide
    · rw [if_pos (by simp [h]), if_pos rfl]
      decide
  · rw [if_neg (by exact fun hc => hm hc.1), days_in_month_ne_two h1 h2 hm]
    omega

lemma yearLen_ge (y : Int) : 365 ≤ yearLen y := by
  unfold yearLen
  split <;> omega

lemma yearLen_le (y : Int) : yearLen y ≤ 366 := by
  unfold yearLen
  split <;> omega

lemma dims_from_succ (y m : Int) (n : Nat) :
    dims_from y m (n + 1) = days_in_month y m + dims_from y (m + 1) n := rfl

lemma dims_from_snoc (y : Int) (n : Nat) : ∀ m : Int,
    dims_from y m (n + 1) = dims_from y m n + days_in_month y (m + n) := by
  induction n with
  | zero =>
    intro m
    simp [dims_from]
  | succ k ih =>
    intro m
    rw [dims_from_succ, ih (m + 1), dims_from_succ]
    have : m + 1 + (k : Int) = m + ((k : Int) + 1) := by ring
    rw [this]
    push_cast
    ring

lemma dims_from_nonneg (y : Int) (n : Nat) : ∀ m : Int, 0 ≤ dims_from y m n := by
  induction n with
  | zero =>
    intro m
    simp [dims_from]
  | succ k ih =>
    intro m
    rw [dims_from_succ]
    have h1 := days_in_month_nonneg y m
    have h2 := ih (m + 1)
    omega

lemma dims_from_append (y : Int) (a : Nat) : ∀ (m : Int) (b : Nat),
    dims_from y m (a + b) = dims_from y m a + dims_from y (m + a) b := by
  induction a with
  | zero =>
    intro m b
    simp [dims_from]
  | succ k ih =>
    intro m b
    have h1 : k + 1 + b = (k + b) + 1 := by omega
    rw [h1, dims_from_succ, ih (m + 1) b, dims_from_succ]
    have : m + 1 + (k : Int) = m + ((k : Int) + 1) := by ring
    rw [this]
    push_cast
    ring

lemma dims_from_lb (y : Int) (n : Nat) : ∀ m : Int, 1 ≤ m → m + n ≤ 13 →
    28 * n ≤ dims_from y m n := by
  induction n with
  | zero =>
    intro m _ _
    simp [dims_from]
  | succ k ih =>
    intro m h1 h2
    rw [dims_from_succ]
    have hd := (days_in_month_bounds (y := y) (m := m) h1 (by push_cast at h2; omega)).1
    have hk := ih (m + 1) (by omega) (by push_cast at h2 ⊢; omega)
    push_cast
    push_cast at hk
    omega

lemma cumY_succ (n : Nat) : cumY (n + 1) = cumY n + yearLen ((n : Int) + 1) := rfl

lemma cumY_nonneg (n : Nat) : 0 ≤ cumY n := by
  induction n with
  | zero => simp [cumY]
  | succ k ih =>
    rw [cumY_succ]
    have := yearLen_ge ((k : Int) + 1)
    omega

lemma cumY_strict_mono {a b : Nat} (h : a < b) : cumY a < cumY b := by
  induction b with
  | zero => omega
  | succ k ih =>
    rw [cumY_succ]
    have hy := yearLen_ge ((k : Int) + 1)
    rcases Nat.lt_succ_iff_lt_or_eq.mp h with hk | hk
    · have := ih hk
      omega
    · subst hk
      omega

lemma cumY_mono {a b : Nat} (h : a ≤ b) : cumY a ≤ cumY b := by
  rcases Nat.lt_or_ge a b with hl | hg
  · exact le_of_lt (cumY_strict_mono hl)
  · have : a = b := by omega
    subst this
    exact le_refl _

lemma cumY_le (n : Nat) : cumY n ≤ 366 * n := by
  induction n with
  | zero => simp [cumY]
  | succ k ih =>
    rw [cumY_succ]
    have := yearLen_le ((k : Int) + 1)
    push_cast
    omega

lemma years_from_eq (n : Nat) : ∀ k : Nat,
    years_from ((k : Int) + 1) n = cumY (k + n) - cumY k := by
  induction n with
  | zero =>
    intro k
    simp [years_from]
  | succ j ih =>
    intro k
    show (if is_leap_year ((k : Int) + 1) then 366 else 365) +
        years_from ((k : Int) + 1 + 1) j = _
    have hcast : (k : Int) + 1 + 1 = ((k + 1 : Nat) : Int) + 1 := by push_cast; ring
    rw [hcast, ih (k + 1)]
    have h1 : k + (j + 1) = (k + 1) + j := by omega
    rw [h1, cumY_succ]
    have : yearLen ((k : Int) + 1) = if is_leap_year ((k : Int) + 1) then 366 else 365 := rfl
    rw [← this]
    omega

lemma years_from_lb (n : Nat) : ∀ y : Int, 365 * n ≤ years_from y n := by
  induction n with
  | zero =>
    intro y
    simp [years_from]
  | succ k ih =>
    intro y
    show 365 * ((k : Int) + 1) ≤ (if is_leap_year y then 366 else 365) + years_from (y + 1) k
    have h1 := ih (y + 1)
    have h2 : (365 : Int) ≤ if is_leap_year y then 366 else 365 := by split <;> omega
    push_cast at h1
    omega

lemma months_before_eq_dims (y : Int) (k : Nat) (hk : k ≤ 12) :
    months_before y k = dims_from y 1 k := by
  induction k with
  | zero => simp [months_before, dims_from]
  | succ j ih =>
    show months_before y j + month_days ((j : Int) + 1) +
        (if (j : Int) + 1 = 2 ∧ is_leap_year y then 1 else 0) = _
    rw [ih (by omega), dims_from_snoc]
    have hadj := month_days_adj (y := y) (m := (j : Int) + 1) (by omega) (by omega)
    have h1 : (1 : Int) + (j : Nat) = (j : Int) + 1 := by omega
    rw [h1]
    omega

lemma dims_from_year (y : Int) : dims_from y 1 12 = yearLen y := by
  show days_in_month y 1 + (days_in_month y 2 + (days_in_month y 3 + (days_in_month y 4 +
      (days_in_month y 5 + (days_in_month y 6 + (days_in_month y 7 + (days_in_month y 8 +
      (days_in_month y 9 + (days_in_month y 10 + (days_in_month y 11 +
      (days_in_month y 12 + 0))))))))))) = yearLen y
  rw [days_in_month_ne_two (by omega) (by omega) (by omega),
    days_in_month_two,
    days_in_month_ne_two (by omega) (by omega) (by omega),
    days_in_month_ne_two (by omega) (by omega) (by omega),
    days_in_month_ne_two (by omega) (by omega) (by omega),
    days_in_month_ne_two (by omega) (by omega) (by omega),
    days_in_month_ne_two (by omega) (by omega) (by omega),
    days_in_month_ne_two (by omega) (by omega) (by omega),
    days_in_month_ne_two (by omega) (by omega) (by omega),
    days_in_month_ne_two (by omega) (by omega) (by omega),
    days_in_month_ne_two (by omega) (by omega) (by omega),
    days_in_month_ne_two (by omega) (by omega) (by omega)]
  unfold yearLen
  cases h : is_leap_year y <;> decide

lemma next_day_cases {y m d : Int} (h : ValidDate y m d) :
    (d < days_in_month y m ∧ next_day y m d = (y, m, d + 1)) ∨
    (d = days_in_month y m ∧ m < 12 ∧ next_day y m d = (y, m + 1, 1)) ∨
    (d = days_in_month y m ∧ m = 12 ∧ next_day y m d = (y + 1, 1, 1)) := by
  obtain ⟨h1, h2, h3, h4, h5⟩ := h
  unfold next_day
  by_cases hd : d + 1 > days_in_month y m
  · rw [if_pos hd]
    by_cases hm : m + 1 > 12
    · rw [if_pos hm]
      right; right
      exact ⟨by omega, by omega, rfl⟩
    · rw [if_neg hm]
      right; left
      exact ⟨by omega, by omega, rfl⟩
  · rw [if_neg hd]
    left
    exact ⟨by omega, rfl⟩

lemma prev_day_eq_of_dlt {y m d : Int} (h : 1 ≤ d) : prev_day y m (d + 1) = (y, m, d) := by
  unfold prev_day
  rw [if_neg (by omega)]
  norm_num

lemma prev_day_month_start {y m : Int} (h : 2 ≤ m) :
    prev_day y m 1 = (y, m - 1, days_in_month y (m - 1)) := by
  unfold prev_day
  rw [if_pos (by omega), if_neg (by omega)]

lemma prev_day_year_start (y : Int) :
    prev_day y 1 1 = (y - 1, 12, days_in_month (y - 1) 12) := by
  unfold prev_day
  rw [if_pos (by omega), if_pos (by omega)]

lemma next_day_props {y m d y2 m2 d2 : Int} (h : ValidDate y m d)
    (he : next_day y m d = (y2, m2, d2)) :
    ValidDate y2 m2 d2 ∧ absDay y2 m2 d2 = absDay y m d + 1 ∧
      prev_day y2 m2 d2 = (y, m, d) := by
  obtain ⟨h1, h2, h3, h4, h5⟩ := h
  rcases next_day_cases ⟨h1, h2, h3, h4, h5⟩ with ⟨hd, heq⟩ | ⟨hd, hm, heq⟩ | ⟨hd, hm, heq⟩
  · rw [heq] at he
    simp only [Prod.mk.injEq] at he
    obtain ⟨hy, hm2, hd2⟩ := he
    subst hy; subst hm2; subst hd2
    refine ⟨⟨h1, h2, h3, by omega, by omega⟩, ?_, prev_day_eq_of_dlt h4⟩
    unfold absDay
    omega
  · rw [heq] at he
    simp only [Prod.mk.injEq] at he
    obtain ⟨hy, hm2, hd2⟩ := he
    subst hy; subst hm2; subst hd2
    have hb := days_in_month_bounds (y := y) (m := m + 1) (by omega) (by omega)
    refine ⟨⟨h1, by omega, by omega, by omega, by omega⟩, ?_, ?_⟩
    · unfold absDay
      have ha : (m + 1 - 1).toNat = (m - 1).toNat + 1 := by omega
      rw [ha, dims_from_snoc]
      have hc : (1 : Int) + ((m - 1).toNat : Int) = m := by omega
      rw [hc]
      omega
    · rw [prev_day_month_start (by omega)]
      have hmm : m + 1 - 1 = m := by ring
      rw [hmm, hd]
  · rw [heq] at he
    simp only [Prod.mk.injEq] at he
    obtain ⟨hy, hm2, hd2⟩ := he
    subst hy; subst hm2; subst hd2
    subst hm
    have h31 : days_in_month y 12 = 31 := by
      rw [days_in_month_ne_two (by omega) (by omega) (by omega)]
      decide
    have h311 : days_in_month (y + 1) 1 = 31 := by
      rw [days_in_month_ne_two (by omega) (by omega) (by omega)]
      decide
    refine ⟨⟨by omega, by omega, by omega, by omega, by omega⟩, ?_, ?_⟩
    · unfold absDay
      have ha : (1 - 1 : Int).toNat = 0 := by omega
      have hb : (y + 1 - 1).toNat = (y - 1).toNat + 1 := by omega
      have hc : (12 - 1 : Int).toNat = 11 := by omega
      rw [ha, hb, hc, cumY_succ]
      have hyl : ((y - 1).toNat : Int) + 1 = y := by omega
      rw [hyl]
      have hyr : yearLen y = dims_from y 1 12 := (dims_from_year y).symm
      have hsn : dims_from y 1 12 = dims_from y 1 11 + days_in_month y (1 + (11 : Nat)) :=
        dims_from_snoc y 11 1
      have hcc : (1 : Int) + ((11 : Nat) : Int) = 12 := by norm_num
      rw [hcc] at hsn
      have hz : dims_from (y + 1) 1 0 = 0 := rfl
      rw [hz]
      omega
    · rw [prev_day_year_start]
      have hyy : y + 1 - 1 = y := by ring
      rw [hyy, h31]
      have : d = 31 := by omega
      rw [this]

lemma absDay_bounds {y m d : Int} (h : ValidDate y m d) :
    cumY (y - 1).toNat ≤ absDay y m d ∧ absDay y m d < cumY (y - 1).toNat + yearLen y := by
  obtain ⟨h1, h2, h3, h4, h5⟩ := h
  unfold absDay
  have hn := dims_from_nonneg y (m - 1).toNat 1
  constructor
  · omega
  · have hs := dims_from_snoc y (m - 1).toNat 1
    have hc : (1 : Int) + ((m - 1).toNat : Int) = m := by omega
    rw [hc] at hs
    have ha12 : ((m - 1).toNat + 1) + (12 - ((m - 1).toNat + 1)) = 12 := by omega
    have happ := dims_from_append y ((m - 1).toNat + 1) 1 (12 - ((m - 1).toNat + 1))
    rw [ha12] at happ
    have hyr := dims_from_year y
    have hnn := dims_from_nonneg y (12 - ((m - 1).toNat + 1))
      (1 + (((m - 1).toNat + 1 : Nat) : Int))
    omega

lemma absDay_nonneg {y m d : Int} (h : ValidDate y m d) : 0 ≤ absDay y m d := by
  obtain ⟨h1, h2, h3, h4, h5⟩ := h
  unfold absDay
  have := cumY_nonneg (y - 1).toNat
  have := dims_from_nonneg y (m - 1).toNat 1
  omega

lemma absDay_lt_epoch {y m d : Int} (h : ValidDate y m d) (hy : y < 1970) :
    absDay y m d < absEpoch := by
  have hb := (absDay_bounds h).2
  have h1 : 1 ≤ y := h.1
  have hstep : cumY ((y - 1).toNat + 1) = cumY (y - 1).toNat + yearLen (((y - 1).toNat : Int) + 1) :=
    cumY_succ _
  have hc : ((y - 1).toNat : Int) + 1 = y := by omega
  rw [hc] at hstep
  have hmono := cumY_mono (a := (y - 1).toNat + 1) (b := 1969) (by omega)
  unfold absEpoch
  omega

lemma epoch_le_absDay {y m d : Int} (h : ValidDate y m d) (hy : 1970 ≤ y) :
    absEpoch ≤ absDay y m d := by
  have hb := (absDay_bounds h).1
  have hmono := cumY_mono (a := 1969) (b := (y - 1).toNat) (by omega)
  unfold absEpoch
  omega

lemma absDay_epoch : absDay 1970 1 1 = absEpoch := by
  unfold absDay absEpoch
  have h1 : ((1970 : Int) - 1).toNat = 1969 := by omega
  have h2 : ((1 : Int) - 1).toNat = 0 := by omega
  rw [h1, h2]
  have h3 : dims_from 1970 1 0 = 0 := rfl
  rw [h3]
  ring

lemma validDate_epoch : ValidDate 1970 1 1 := by
  refine ⟨by omega, by omega, by omega, by omega, ?_⟩
  rw [days_in_month_ne_two (by omega) (by omega) (by omega)]
  decide

lemma neg_loop_eq (fuel : Nat) : ∀ y m d acc : Int, ValidDate y m d →
    absDay y m d ≤ absEpoch → (absEpoch - absDay y m d).toNat ≤ fuel →
    neg_loop fuel y m d acc = acc - (absEpoch - absDay y m d) := by
  induction fuel with
  | zero =>
    intro y m d acc hv hle hf
    show acc = acc - (absEpoch - absDay y m d)
    omega
  | succ f ih =>
    intro y m d acc hv hle hf
    by_cases hb : before_epoch y m d = true
    · have hy : y < 1970 := (before_epoch_iff hv).mp hb
      have hlt := absDay_lt_epoch hv hy
      rcases hnd : next_day y m d with ⟨y2, m2, d2⟩
      obtain ⟨hv2, habs, _⟩ := next_day_props hv hnd
      show (if before_epoch y m d then
          match next_day y m d with
          | (y', m', d') => neg_loop f y' m' d' (acc - 1)
        else acc) = _
      rw [if_pos hb, hnd]
      show neg_loop f y2 m2 d2 (acc - 1) = _
      rw [ih y2 m2 d2 (acc - 1) hv2 (by omega) (by omega)]
      omega
    · have hy : ¬ y < 1970 := fun hc => hb ((before_epoch_iff hv).mpr hc)
      have hge := epoch_le_absDay hv (by omega)
      show (if before_epoch y m d then
          match next_day y m d with
          | (y', m', d') => neg_loop f y' m' d' (acc - 1)
        else acc) = _
      rw [if_neg hb]
      omega

lemma absDay_lex_lt {y1 m1 d1 y2 m2 d2 : Int} (h1 : ValidDate y1 m1 d1)
    (h2 : ValidDate y2 m2 d2)
    (hlt : y1 < y2 ∨ (y1 = y2 ∧ m1 < m2) ∨ (y1 = y2 ∧ m1 = m2 ∧ d1 < d2)) :
    absDay y1 m1 d1 < absDay y2 m2 d2 := by
  rcases hlt with hy | ⟨hy, hm⟩ | ⟨hy, hm, hd⟩
  · have hb1 := (absDay_bounds h1).2
    have hb2 := (absDay_bounds h2).1
    have hstep : cumY ((y1 - 1).toNat + 1) =
        cumY (y1 - 1).toNat + yearLen (((y1 - 1).toNat : Int) + 1) := cumY_succ _
    have hc : ((y1 - 1).toNat : Int) + 1 = y1 := by
      have := h1.1
      omega
    rw [hc] at hstep
    have hmono := cumY_mono (a := (y1 - 1).toNat + 1) (b := (y2 - 1).toNat)
      (by have := h1.1; omega)
    omega
  · subst hy
    obtain ⟨g1, g2, g3, g4, g5⟩ := h1
    obtain ⟨e1, e2, e3, e4, e5⟩ := h2
    unfold absDay
    have hs := dims_from_snoc y1 (m1 - 1).toNat 1
    have hc : (1 : Int) + ((m1 - 1).toNat : Int) = m1 := by omega
    rw [hc] at hs
    have hk : ((m1 - 1).toNat + 1) + ((m2 - 1).toNat - ((m1 - 1).toNat + 1)) =
        (m2 - 1).toNat := by omega
    have happ := dims_from_append y1 ((m1 - 1).toNat + 1) 1
      ((m2 - 1).toNat - ((m1 - 1).toNat + 1))
    rw [hk] at happ
    have hnn := dims_from_nonneg y1 ((m2 - 1).toNat - ((m1 - 1).toNat + 1))
      (1 + (((m1 - 1).toNat + 1 : Nat) : Int))
    omega
  · subst hy
    subst hm
    unfold absDay
    omega

lemma absDay_inj {y1 m1 d1 y2 m2 d2 : Int} (h1 : ValidDate y1 m1 d1)
    (h2 : ValidDate y2 m2 d2) (he : absDay y1 m1 d1 = absDay y2 m2 d2) :
    y1 = y2 ∧ m1 = m2 ∧ d1 = d2 := by
  have htri : (y1 < y2 ∨ (y1 = y2 ∧ m1 < m2) ∨ (y1 = y2 ∧ m1 = m2 ∧ d1 < d2)) ∨
      (y2 < y1 ∨ (y2 = y1 ∧ m2 < m1) ∨ (y2 = y1 ∧ m2 = m1 ∧ d2 < d1)) ∨
      (y1 = y2 ∧ m1 = m2 ∧ d1 = d2) := by omega
  rcases htri with hl | hr | heq
  · exact absurd he (by have := absDay_lex_lt h1 h2 hl; omega)
  · exact absurd he (by have := absDay_lex_lt h2 h1 hr; omega)
  · exact heq

lemma date_to_days_eq_absDay {y m d : Int} (h : ValidDate y m d) :
    date_to_days y m d = absDay y m d - absEpoch := by
  unfold date_to_days
  rw [if_neg (show ¬¬(is_valid_date y m d = true) from
    fun hc => hc (is_valid_date_iff.mpr h))]
  by_cases hbe : before_epoch y m d = true
  · rw [if_pos hbe]
    have hy : y < 1970 := (before_epoch_iff h).mp hbe
    have hlt := absDay_lt_epoch h hy
    have hnn := absDay_nonneg h
    have hcap := cumY_le 1969
    rw [neg_loop_eq negFuel y m d 0 h (by omega)
      (by show _ ≤ 800000; unfold absEpoch at hlt ⊢; omega)]
    omega
  · rw [if_neg hbe]
    have hy : 1970 ≤ y := by
      by_contra hc
      exact hbe ((before_epoch_iff h).mpr (by omega))
    have hyf : years_from 1970 (y - 1970).toNat =
        cumY (1969 + (y - 1970).toNat) - cumY 1969 := by
      have he := years_from_eq (y - 1970).toNat 1969
      norm_num at he
      exact he
    have hmb := months_before_eq_dims y (m - 1).toNat (by have := h.2.2.1; omega)
    have hidx : 1969 + (y - 1970).toNat = (y - 1).toNat := by omega
    rw [hidx] at hyf
    rw [hyf, hmb]
    unfold absDay absEpoch
    ring

/-- Forward iteration of `next_day`, the inverse of `back_walk` used to reason
about the backward walk of days_to_date. -/
def iterN : Nat → Int × Int × Int → Int × Int × Int
  | 0, x => x
  | n + 1, x =>
    match iterN n x with
    | (y, m, d) => next_day y m d

lemma iterN_props (n : Nat) {y m d : Int} (h : ValidDate y m d) :
    ValidDate (iterN n (y, m, d)).1 (iterN n (y, m, d)).2.1 (iterN n (y, m, d)).2.2 ∧
      absDay (iterN n (y, m, d)).1 (iterN n (y, m, d)).2.1 (iterN n (y, m, d)).2.2 =
        absDay y m d + n := by
  induction n with
  | zero =>
    refine ⟨h, ?_⟩
    show absDay y m d = absDay y m d + ((0 : Nat) : Int)
    norm_num
  | succ k ih =>
    obtain ⟨ihv, iha⟩ := ih
    rcases hik : iterN k (y, m, d) with ⟨a, b, c⟩
    rw [hik] at ihv iha
    rcases hnd : next_day a b c with ⟨p, q, r⟩
    obtain ⟨hv2, habs, _⟩ := next_day_props ihv hnd
    have hstep : iterN (k + 1) (y, m, d) = (p, q, r) := by
      show (match iterN k (y, m, d) with
        | (y', m', d') => next_day y' m' d') = (p, q, r)
      rw [hik]
      exact hnd
    rw [hstep]
    refine ⟨hv2, ?_⟩
    push_cast
    omega

lemma back_walk_iterN (n : Nat) : ∀ y m d : Int, ValidDate y m d →
    back_walk n (iterN n (y, m, d)) = (y, m, d) := by
  induction n with
  | zero =>
    intro y m d _
    rfl
  | succ k ih =>
    intro y m d hv
    obtain ⟨ihv, _⟩ := iterN_props k hv
    rcases hik : iterN k (y, m, d) with ⟨a, b, c⟩
    rw [hik] at ihv
    rcases hnd : next_day a b c with ⟨p, q, r⟩
    obtain ⟨_, _, hprev⟩ := next_day_props ihv hnd
    have hstep : iterN (k + 1) (y, m, d) = (p, q, r) := by
      show (match iterN k (y, m, d) with
        | (y', m', d') => next_day y' m' d') = (p, q, r)
      rw [hik]
      exact hnd
    rw [hstep]
    show back_walk k (prev_day p q r) = (y, m, d)
    rw [hprev, ← hik]
    exact ih y m d hv

lemma iterN_epoch {y m d : Int} (h : ValidDate y m d) (hle : absDay y m d ≤ absEpoch) :
    iterN (absEpoch - absDay y m d).toNat (y, m, d) = (1970, 1, 1) := by
  obtain ⟨hv, ha⟩ := iterN_props (absEpoch - absDay y m d).toNat h
  rcases hik : iterN (absEpoch - absDay y m d).toNat (y, m, d) with ⟨a, b, c⟩
  rw [hik] at hv ha
  dsimp only at hv ha
  have habs : absDay a b c = absDay 1970 1 1 := by
    rw [absDay_epoch]
    omega
  obtain ⟨e1, e2, e3⟩ := absDay_inj hv validDate_epoch habs
  subst e1
  subst e2
  subst e3
  rfl

lemma round_trip_neg {y m d : Int} (h : ValidDate y m d) (hy : y < 1970) :
    days_to_date (date_to_days y m d) = (y, m, d) := by
  have hd := date_to_days_eq_absDay h
  have hlt := absDay_lt_epoch h hy
  unfold days_to_date
  rw [if_neg (by omega), if_neg (by omega)]
  have hneg : (-(date_to_days y m d)).toNat = (absEpoch - absDay y m d).toNat := by
    omega
  rw [hneg, ← iterN_epoch h (by omega)]
  exact back_walk_iterN _ y m d h

lemma loop_cur_eq_dim {y m : Int} (h1 : 1 ≤ m) (h2 : m ≤ 12) :
    (if m = 2 ∧ is_leap_year y then 29 else month_days m) = days_in_month y m := by
  by_cases hm : m = 2
  · subst hm
    rw [days_in_month_two]
    cases hl : is_leap_year y
    · rw [if_neg (by simp [hl])]
      decide
    · rw [if_pos (by simp [hl]), if_pos rfl]
  · rw [if_neg (fun hc => hm hc.1), days_in_month_ne_two h1 h2 hm]

lemma ytd_year_loop_eq (n : Nat) : ∀ (fuel : Nat) (year rem R : Int),
    rem = years_from year n + R → 0 ≤ R → R < yearLen (year + n) → n ≤ fuel →
    ytd_year_loop fuel rem year = (R, year + n) := by
  induction n with
  | zero =>
    intro fuel year rem R hrem h0 hR hf
    have hz : years_from year 0 = 0 := rfl
    rw [hz] at hrem
    have hcast : year + ((0 : Nat) : Int) = year := by norm_num
    rw [hcast] at hR ⊢
    cases fuel with
    | zero =>
      show (rem, year) = (R, year)
      rw [hrem]
      norm_num
    | succ f =>
      show (if rem > 0 then
          if rem ≥ yearLen year then ytd_year_loop f (rem - yearLen year) (year + 1)
          else (rem, year)
        else (rem, year)) = (R, year)
      by_cases hp : rem > 0
      · rw [if_pos hp, if_neg (by omega)]
        rw [hrem]
        norm_num
      · rw [if_neg hp]
        rw [hrem]
        norm_num
  | succ k ih =>
    intro fuel year rem R hrem h0 hR hf
    cases fuel with
    | zero => omega
    | succ f =>
      have hun : years_from year (k + 1) = yearLen year + years_from (year + 1) k := rfl
      rw [hun] at hrem
      have hyl := yearLen_ge year
      have htl := years_from_lb k (year + 1)
      show (if rem > 0 then
          if rem ≥ yearLen year then ytd_year_loop f (rem - yearLen year) (year + 1)
          else (rem, year)
        else (rem, year)) = (R, year + ((k + 1 : Nat) : Int))
      rw [if_pos (by omega), if_pos (by omega)]
      have hcast : year + 1 + ((k : Nat) : Int) = year + ((k + 1 : Nat) : Int) := by
        push_cast
        ring
      have hR2 : R < yearLen (year + 1 + (k : Nat)) := by
        rw [hcast]
        exact hR
      rw [ih f (year + 1) (rem - yearLen year) R (by omega) h0 hR2 (by omega), hcast]

lemma ytd_month_loop_eq (n : Nat) : ∀ (fuel : Nat) (year month rem R : Int),
    rem = dims_from year month n + R → 1 ≤ month → month + n ≤ 12 → 0 ≤ R →
    R < days_in_month year (month + n) → n ≤ fuel →
    ytd_month_loop fuel rem month year = (R, month + n) := by
  induction n with
  | zero =>
    intro fuel year month rem R hrem h1 h12 h0 hR hf
    have hz : dims_from year month 0 = 0 := rfl
    rw [hz] at hrem
    have hcast : month + ((0 : Nat) : Int) = month := by norm_num
    rw [hcast] at hR h12 ⊢
    cases fuel with
    | zero =>
      show (rem, month) = (R, month)
      rw [hrem]
      norm_num
    | succ f =>
      show (if month ≤ 12 ∧ rem > 0 then
          if rem ≥ (if month = 2 ∧ is_leap_year year then 29 else month_days month) then
            ytd_month_loop f
              (rem - (if month = 2 ∧ is_leap_year year then 29 else month_days month))
              (month + 1) year
          else (rem, month)
        else (rem, month)) = (R, month)
      rw [loop_cur_eq_dim h1 h12]
      by_cases hp : month ≤ 12 ∧ rem > 0
      · rw [if_pos hp, if_neg (by omega)]
        rw [hrem]
        norm_num
      · rw [if_neg hp]
        rw [hrem]
        norm_num
  | succ k ih =>
    intro fuel year month rem R hrem h1 h12 h0 hR hf
    cases fuel with
    | zero => omega
    | succ f =>
      have hun : dims_from year month (k + 1) =
          days_in_month year month + dims_from year (month + 1) k := rfl
      rw [hun] at hrem
      have hp12 : month + ((k + 1 : Nat) : Int) ≤ 12 := h12
      have hm12 : month ≤ 11 := by push_cast at hp12; omega
      have hdim := (days_in_month_bounds (y := year) (m := month) h1 (by omega)).1
      have hrest := dims_from_nonneg year k (month + 1)
      show (if month ≤ 12 ∧ rem > 0 then
          if rem ≥ (if month = 2 ∧ is_leap_year year then 29 else month_days month) then
            ytd_month_loop f
              (rem - (if month = 2 ∧ is_leap_year year then 29 else month_days month))
              (month + 1) year
          else (rem, month)
        else (rem, month)) = (R, month + ((k + 1 : Nat) : Int))
      rw [loop_cur_eq_dim h1 (by omega), if_pos (by constructor <;> omega), if_pos (by omega)]
      have hcast : month + 1 + ((k : Nat) : Int) = month + ((k + 1 : Nat) : Int) := by
        push_cast
        ring
      have hR2 : R < days_in_month year (month + 1 + (k : Nat)) := by
        rw [hcast]
        exact hR
      rw [ih f year (month + 1) (rem - days_in_month year month) R (by omega) (by omega)
        (by push_cast at hp12; omega) h0 hR2 (by omega), hcast]

lemma round_trip_pos {y m d : Int} (h : ValidDate y m d) (hy : 1970 ≤ y) (hy2 : y ≤ 9999) :
    days_to_date (date_to_days y m d) = (y, m, d) := by
  have hL8 := date_to_days_eq_absDay h
  have hge := epoch_le_absDay h hy
  by_cases h0 : date_to_days y m d = 0
  · have habs : absDay y m d = absDay 1970 1 1 := by
      rw [absDay_epoch]
      omega
    obtain ⟨e1, e2, e3⟩ := absDay_inj h validDate_epoch habs
    unfold days_to_date
    rw [if_pos h0, e1, e2, e3]
  · have hpos : date_to_days y m d > 0 := by omega
    have hb := (absDay_bounds h).2
    have hbl := (absDay_bounds h).1
    obtain ⟨g1, g2, g3, g4, g5⟩ := h
    -- year-loop: the remaining day count splits as full years from 1970 plus
    -- the in-year rest
    have hdecomp : date_to_days y m d =
        years_from 1970 (y - 1970).toNat +
          (months_before y (m - 1).toNat + (d - 1)) := by
      unfold date_to_days
      rw [if_neg (show ¬¬(is_valid_date y m d = true) from
        fun hc => hc (is_valid_date_iff.mpr ⟨g1, g2, g3, g4, g5⟩)),
        if_neg (show ¬ before_epoch y m d = true from
          fun hc => by have := (before_epoch_iff ⟨g1, g2, g3, g4, g5⟩).mp hc; omega)]
      ring
    have hmb := months_before_eq_dims y (m - 1).toNat (by omega)
    have hcast1970 : (1970 : Int) + ((y - 1970).toNat : Int) = y := by omega
    have hinyear : 0 ≤ months_before y (m - 1).toNat + (d - 1) ∧
        months_before y (m - 1).toNat + (d - 1) < yearLen y := by
      rw [hmb]
      have hnn := dims_from_nonneg y (m - 1).toNat 1
      unfold absDay at hb hbl
      constructor <;> omega
    have hYL := ytd_year_loop_eq (y - 1970).toNat yearFuel 1970 (date_to_days y m d)
      (months_before y (m - 1).toNat + (d - 1)) hdecomp hinyear.1
      (by rw [hcast1970]; exact hinyear.2)
      (by show _ ≤ 6000000; omega)
    rw [hcast1970] at hYL
    -- month-loop: the in-year rest splits as full months plus d - 1
    have hcast1 : (1 : Int) + ((m - 1).toNat : Int) = m := by omega
    have hML := ytd_month_loop_eq (m - 1).toNat 13 y 1
      (months_before y (m - 1).toNat + (d - 1)) (d - 1)
      (by rw [hmb]) (by omega) (by omega) (by omega)
      (by rw [hcast1]; omega) (by omega)
    rw [hcast1] at hML
    unfold days_to_date
    rw [if_neg h0, if_pos hpos, hYL]
    show (match ytd_month_loop 13 (months_before y (m - 1).toNat + (d - 1)) 1 y with
      | (remaining2, month) => (y, month, remaining2 + 1)) = (y, m, d)
    rw [hML]
    show (y, m, d - 1 + 1) = (y, m, d)
    norm_num

/-! ### Ownership bookkeeping helpers -/

/-- A value currently owning a text buffer: CHARS tag, ownership flag set,
non-null pointer — exactly the state whose reset must `delete[]`. -/
def OwnsTextBuf (v : Value) : Prop :=
  v.attr_type_ = AttrType.CHARS ∧ v.own_data_ = true ∧
    ∃ s, v.value_ = UnionVal.vptr (some s)

lemma reset_released_iff (v : Value) : (v.reset).2 = true ↔ OwnsTextBuf v := by
  rcases v with ⟨a, l, o, u⟩
  unfold Value.reset OwnsTextBuf
  cases a <;> cases o <;> rcases u with i | q | b | (_ | p) | _ <;> simp

lemma reset_neutralized (a : AttrType) (u : UnionVal) :
    ((⟨a, 0, false, u⟩ : Value).reset).2 = false := by
  unfold Value.reset
  cases a <;> simp

/-! ### The claims -/

/-- C9.  The day-count codec is anchored at the epoch 1970-01-01:
date_to_days(1970,1,1) = 0, days_to_date(0) = (1970,1,1), and the day before
the epoch maps both ways to -1. -/
theorem epoch_anchor_c9 :
    date_to_days 1970 1 1 = 0 ∧ days_to_date 0 = (1970, 1, 1) ∧
      date_to_days 1969 12 31 = -1 ∧ days_to_date (-1) = (1969, 12, 31) := by
  decide

/-- C1.  Round-trip: for every valid calendar date with year in [1, 9999],
days_to_date(date_to_days(year, month, day)) returns exactly
(year, month, day). -/
theorem date_roundtrip_c1 (y m d : Int) (hv : is_valid_date y m d = true)
    (h1 : 1 ≤ y) (h2 : y ≤ 9999) :
    days_to_date (date_to_days y m d) = (y, m, d) := by
  have h := is_valid_date_iff.mp hv
  by_cases hy : y < 1970
  · exact round_trip_neg h hy
  · exact round_trip_pos h (by omega) h2

/-- Witness for C1 at the date 2024-03-05. -/
theorem date_roundtrip_c1_witness :
    is_valid_date 2024 3 5 = true ∧ (1 : Int) ≤ 2024 ∧ (2024 : Int) ≤ 9999 ∧
      days_to_date (date_to_days 2024 3 5) = (2024, 3, 5) :=
  ⟨by decide, by decide, by decide,
    date_roundtrip_c1 2024 3 5 (by decide) (by decide) (by decide)⟩

/-- C6.  Strict monotonicity of date_to_days in lexicographic calendar order
on valid dates of the supported range. -/
theorem date_to_days_monotone_c6 (y1 m1 d1 y2 m2 d2 : Int)
    (hv1 : is_valid_date y1 m1 d1 = true) (hv2 : is_valid_date y2 m2 d2 = true)
    (_hr1 : y1 ≤ 9999) (_hr2 : y2 ≤ 9999)
    (hlt : y1 < y2 ∨ (y1 = y2 ∧ m1 < m2) ∨ (y1 = y2 ∧ m1 = m2 ∧ d1 < d2)) :
    date_to_days y1 m1 d1 < date_to_days y2 m2 d2 := by
  have h1 := is_valid_date_iff.mp hv1
  have h2 := is_valid_date_iff.mp hv2
  rw [date_to_days_eq_absDay h1, date_to_days_eq_absDay h2]
  have := absDay_lex_lt h1 h2 hlt
  omega

/-- Witness for C6: 1970-01-01 is strictly before 1970-01-02. -/
theorem date_to_days_monotone_c6_witness :
    is_valid_date 1970 1 1 = true ∧ is_valid_date 1970 1 2 = true ∧
      date_to_days 1970 1 1 < date_to_days 1970 1 2 :=
  ⟨by decide, by decide,
    date_to_days_monotone_c6 1970 1 1 1970 1 2 (by decide) (by decide) (by decide)
      (by decide) (by norm_num)⟩

/-- C8 counterexample.  The claim requires the sentinel INT32_MIN whenever the
day count would overflow int32; but date_to_days has no overflow guard: on the
valid date 5890000-01-01 the accumulated day count (at least 365 per year
for 5888030 years) exceeds INT32_MAX, and the non-sentinel positive
accumulation is returned (in the C++, the int accumulator silently overflows
instead of producing INT32_MIN). -/
theorem date_to_days_overflow_counterexample_c8 :
    is_valid_date 5890000 1 1 = true ∧ 2147483647 < date_to_days 5890000 1 1 := by
  constructor
  · decide
  · have hlb := years_from_lb 5888030 1970
    unfold date_to_days
    rw [if_neg (by decide), if_neg (by decide)]
    have ht : ((5890000 : Int) - 1970).toNat = 5888030 := by omega
    have hm : ((1 : Int) - 1).toNat = 0 := by omega
    rw [ht, hm]
    have hmb : months_before 5890000 0 = 0 := rfl
    rw [hmb]
    omega

/-- C8 as amended.  date_to_days returns the sentinel INT32_MIN exactly when
is_valid_date fails; there is no overflow guard, and for every valid date
with year at most 9999 the result is a non-sentinel day count strictly
inside the int32 range. -/
theorem date_to_days_sentinel_c8 (y m d : Int) :
    (is_valid_date y m d = false → date_to_days y m d = -2147483648) ∧
      (is_valid_date y m d = true → y ≤ 9999 →
        -2147483648 < date_to_days y m d ∧ date_to_days y m d < 2147483647) := by
  constructor
  · intro hf
    unfold date_to_days
    rw [if_pos (by rw [hf]; exact fun hc => nomatch hc)]
  · intro hv hr
    have h := is_valid_date_iff.mp hv
    rw [date_to_days_eq_absDay h]
    have hnn := absDay_nonneg h
    have hcap := cumY_le 1969
    have hup := (absDay_bounds h).2
    have hstep : cumY ((y - 1).toNat + 1) =
        cumY (y - 1).toNat + yearLen (((y - 1).toNat : Int) + 1) := cumY_succ _
    have hc : ((y - 1).toNat : Int) + 1 = y := by
      have := h.1
      omega
    rw [hc] at hstep
    have hmono := cumY_mono (a := (y - 1).toNat + 1) (b := 9999) (by have := h.1; omega)
    have hcap2 := cumY_le 9999
    have hepos := cumY_nonneg 1969
    unfold absEpoch
    constructor <;> omega

/-- Witness for C8: the invalid date 2024-13-01 yields the sentinel, the valid
date 2024-03-05 a non-sentinel in-range count. -/
theorem date_to_days_sentinel_c8_witness :
    date_to_days 2024 13 1 = -2147483648 ∧
      -2147483648 < date_to_days 2024 3 5 ∧ date_to_days 2024 3 5 < 2147483647 :=
  ⟨(date_to_days_sentinel_c8 2024 13 1).1 (by decide),
    (date_to_days_sentinel_c8 2024 3 5).2 (by decide) (by decide)⟩

lemma set_value_dates {r v : Value} (hv : v.attr_type_ = AttrType.DATES) :
    (r.set_value v).1 = ⟨AttrType.DATES, 4, false, UnionVal.vint (readInt32 v)⟩ := by
  rcases v with ⟨a, l, o, u⟩
  subst hv
  unfold Value.set_value Value.get_int Value.set_int readInt32
  rcases u with i | q | b | p | _ <;> rfl

lemma set_string_strlen (r : Value) (str : List Char) :
    (r.set_string (some str) 0).1 =
      ⟨AttrType.CHARS, (str.length : Int), true, UnionVal.vptr (some str)⟩ := by
  unfold Value.set_string
  have hn : (if (0 : Int) > 0 then min str.length (0 : Int).toNat else str.length) =
      str.length := by norm_num
  simp only [hn, List.take_length]

lemma to_string_dates_rc {v : Value} (hv : v.attr_type_ = AttrType.DATES) :
    (DateType.to_string v).1 = RC.SUCCESS := by
  unfold DateType.to_string
  rw [if_neg (fun hc => hc hv)]

lemma compare_date_lit (x y : Int) :
    DateType.compare ⟨AttrType.DATES, 4, false, UnionVal.vint x⟩
      ⟨AttrType.DATES, 4, false, UnionVal.vint y⟩ =
      if x < y then -1 else if x > y then 1 else 0 := by
  unfold DateType.compare
  rw [if_neg (fun hc => hc ⟨rfl, rfl⟩)]
  rfl

lemma sign_trichotomy (a b : Int) :
    ((if a < b then (-1 : Int) else if a > b then 1 else 0) < 0 ↔ a < b) ∧
      ((if a < b then (-1 : Int) else if a > b then 1 else 0) = 0 ↔ a = b) ∧
      (0 < (if a < b then (-1 : Int) else if a > b then 1 else 0) ↔ b < a) := by
  rcases lt_trichotomy a b with h | h | h
  · rw [if_pos h]
    exact ⟨⟨fun _ => h, fun _ => by norm_num⟩,
      ⟨fun hx => by omega, fun hx => by omega⟩,
      ⟨fun hx => by omega, fun hx => by omega⟩⟩
  · rw [if_neg (by omega), if_neg (by omega)]
    exact ⟨⟨fun hx => by omega, fun hx => by omega⟩,
      ⟨fun _ => h, fun _ => rfl⟩,
      ⟨fun hx => by omega, fun hx => by omega⟩⟩
  · rw [if_neg (by omega), if_pos (by omega)]
    exact ⟨⟨fun hx => by omega, fun hx => by omega⟩,
      ⟨fun hx => by omega, fun hx => by omega⟩,
      ⟨fun _ => h, fun _ => by norm_num⟩⟩

/-- C5.  Scalar Date comparison is the sign of the day-count order, and the
columnar comparison at two row offsets equals the scalar comparison of Date
values holding the day counts read at those offsets. -/
theorem date_compare_c5 (l r : Value) (cl cr : Column) (i j : Nat)
    (hl : l.attr_type_ = AttrType.DATES) (hr : r.attr_type_ = AttrType.DATES) :
    ((DateType.compare l r < 0 ↔ readInt32 l < readInt32 r) ∧
      (DateType.compare l r = 0 ↔ readInt32 l = readInt32 r) ∧
      (0 < DateType.compare l r ↔ readInt32 r < readInt32 l)) ∧
    DateType.compare_col cl cr i j =
      DateType.compare (Value.mkDefault.set_date (cl.data_.getD i 0)).1
        (Value.mkDefault.set_date (cr.data_.getD j 0)).1 := by
  constructor
  · unfold DateType.compare
    rw [if_neg (fun hc => hc ⟨hl, hr⟩)]
    exact sign_trichotomy (readInt32 l) (readInt32 r)
  · show DateType.compare_col cl cr i j =
      DateType.compare ⟨AttrType.DATES, 4, false, UnionVal.vint (cl.data_.getD i 0)⟩
        ⟨AttrType.DATES, 4, false, UnionVal.vint (cr.data_.getD j 0)⟩
    rw [compare_date_lit]
    rfl

/-- Witness for C5: day counts 10 and 20, as scalar values and stored in
one-row columns. -/
theorem date_compare_c5_witness :
    DateType.compare (Value.mkDefault.set_date 10).1 (Value.mkDefault.set_date 20).1 < 0 ∧
      DateType.compare_col ⟨AttrType.DATES, [10]⟩ ⟨AttrType.DATES, [20]⟩ 0 0 =
        DateType.compare (Value.mkDefault.set_date ([(10 : Int)].getD 0 0)).1
          (Value.mkDefault.set_date ([(20 : Int)].getD 0 0)).1 := by
  have h := date_compare_c5 (Value.mkDefault.set_date 10).1 (Value.mkDefault.set_date 20).1
    ⟨AttrType.DATES, [10]⟩ ⟨AttrType.DATES, [20]⟩ 0 0 rfl rfl
  exact ⟨h.1.1.mpr (by decide), h.2⟩

/-- C7.  DateType::cast_to: a non-Date source fails with INVALID_ARGUMENT and
leaves the result untouched; Date-to-Date copies the day count; Date-to-Text
stores the to_string rendering; every other target (Integer included) fails
with UNSUPPORTED and leaves the result untouched. -/
theorem date_cast_to_c7 :
    (∀ (v r : Value) (t : AttrType), v.attr_type_ ≠ AttrType.DATES →
      DateType.cast_to v t r = (RC.INVALID_ARGUMENT, r)) ∧
    (∀ v r : Value, v.attr_type_ = AttrType.DATES →
      DateType.cast_to v AttrType.DATES r = (RC.SUCCESS, (r.set_value v).1) ∧
      (r.set_value v).1.attr_type_ = AttrType.DATES ∧
      readInt32 (r.set_value v).1 = readInt32 v) ∧
    (∀ v r : Value, v.attr_type_ = AttrType.DATES →
      DateType.cast_to v AttrType.CHARS r =
        (RC.SUCCESS, (r.set_string (some (DateType.to_string v).2) 0).1) ∧
      (r.set_string (some (DateType.to_string v).2) 0).1.attr_type_ = AttrType.CHARS ∧
      (r.set_string (some (DateType.to_string v).2) 0).1.value_ =
        UnionVal.vptr (some (DateType.to_string v).2)) ∧
    (∀ (v r : Value) (t : AttrType), v.attr_type_ = AttrType.DATES →
      t ≠ AttrType.DATES → t ≠ AttrType.CHARS →
      DateType.cast_to v t r = (RC.UNSUPPORTED, r)) := by
  refine ⟨?_, ?_, ?_, ?_⟩
  · intro v r t hne
    unfold DateType.cast_to
    rw [if_pos hne]
  · intro v r hv
    refine ⟨?_, ?_, ?_⟩
    · unfold DateType.cast_to
      rw [if_neg (fun hc => hc hv)]
    · rw [set_value_dates hv]
    · rw [set_value_dates hv]
      rfl
  · intro v r hv
    refine ⟨?_, ?_, ?_⟩
    · unfold DateType.cast_to
      rw [if_neg (fun hc => hc hv)]
      show (if (DateType.to_string v).1 ≠ RC.SUCCESS then ((DateType.to_string v).1, r)
        else (RC.SUCCESS, (r.set_string (some (DateType.to_string v).2) 0).1)) = _
      rw [if_neg (fun hc => hc (to_string_dates_rc hv))]
    · rw [set_string_strlen]
    · rw [set_string_strlen]
  · intro v r t hv ht1 ht2
    unfold DateType.cast_to
    rw [if_neg (fun hc => hc hv)]
    cases t with
    | DATES => exact absurd rfl ht1
    | CHARS => exact absurd rfl ht2
    | UNDEFINED => rfl
    | INTS => rfl
    | FLOATS => rfl
    | BOOLEANS => rfl

/-- Witness for C7: the Date value with day count 0 against the four target
classes (Integer target unsupported, non-Date source invalid, Date copy,
Text rendering). -/
theorem date_cast_to_c7_witness :
    DateType.cast_to (Value.mkDefault.set_date 0).1 AttrType.INTS Value.mkDefault =
      (RC.UNSUPPORTED, Value.mkDefault) ∧
    DateType.cast_to Value.mkDefault AttrType.DATES Value.mkDefault =
      (RC.INVALID_ARGUMENT, Value.mkDefault) ∧
    DateType.cast_to (Value.mkDefault.set_date 0).1 AttrType.DATES Value.mkDefault =
      (RC.SUCCESS, (Value.mkDefault.set_value (Value.mkDefault.set_date 0).1).1) ∧
    DateType.cast_to (Value.mkDefault.set_date 0).1 AttrType.CHARS Value.mkDefault =
      (RC.SUCCESS, (Value.mkDefault.set_string
        (some (DateType.to_string (Value.mkDefault.set_date 0).1).2) 0).1) :=
  ⟨date_cast_to_c7.2.2.2 (Value.mkDefault.set_date 0).1 Value.mkDefault AttrType.INTS rfl
      (by decide) (by decide),
    date_cast_to_c7.1 Value.mkDefault Value.mkDefault AttrType.DATES (by decide),
    (date_cast_to_c7.2.1 (Value.mkDefault.set_date 0).1 Value.mkDefault rfl).1,
    (date_cast_to_c7.2.2.1 (Value.mkDefault.set_date 0).1 Value.mkDefault rfl).1⟩

/-- C3.  A moved-from Value (move construction or move assignment) has its
ownership flag false and length 0, and resetting it (what the destructor
does with the payload) releases nothing; and every reassignment — copy
assignment, move assignment, or any set_* call — performs exactly one release
as its first step, and that release fires precisely when the target currently
owns a text buffer.  (set_value on an Undefined-tagged source is a caller
contract violation, `ASSERT(false)` in the C++, and is excluded.) -/
theorem value_ownership_c3 (t s : Value) (xi : Int) (xq : Rat) (xb : Bool)
    (xs : Option (List Char)) (xl : Int) :
    ((Value.move_ctor s).2.own_data_ = false ∧ (Value.move_ctor s).2.length_ = 0 ∧
      ((Value.move_ctor s).2.reset).2 = false) ∧
    ((Value.move_assign t s).2.1.own_data_ = false ∧
      (Value.move_assign t s).2.1.length_ = 0 ∧
      (((Value.move_assign t s).2.1).reset).2 = false) ∧
    ((Value.move_assign t s).2.2 = true ↔ OwnsTextBuf t) ∧
    ((Value.copy_assign t s).2 = true ↔ OwnsTextBuf t) ∧
    ((t.set_int xi).2 = true ↔ OwnsTextBuf t) ∧
    ((t.set_float xq).2 = true ↔ OwnsTextBuf t) ∧
    ((t.set_boolean xb).2 = true ↔ OwnsTextBuf t) ∧
    ((t.set_date xi).2 = true ↔ OwnsTextBuf t) ∧
    ((t.set_string xs xl).2 = true ↔ OwnsTextBuf t) ∧
    (s.attr_type_ ≠ AttrType.UNDEFINED →
      ((t.set_value s).2 = true ↔ OwnsTextBuf t)) := by
  refine ⟨⟨rfl, rfl, reset_neutralized _ _⟩, ⟨rfl, rfl, reset_neutralized _ _⟩,
    reset_released_iff t, ?_, reset_released_iff t,
    reset_released_iff t, reset_released_iff t, reset_released_iff t, ?_, ?_⟩
  · rcases s with ⟨a, l, o, u⟩
    cases a <;> exact reset_released_iff t
  · cases xs with
    | none => exact reset_released_iff t
    | some str => exact reset_released_iff t
  · intro hne
    rcases s with ⟨a, l, o, u⟩
    cases a with
    | UNDEFINED => exact absurd rfl hne
    | CHARS => exact reset_released_iff t
    | INTS => exact reset_released_iff t
    | FLOATS => exact reset_released_iff t
    | BOOLEANS => exact reset_released_iff t
    | DATES => exact reset_released_iff t

/-- Witness for C3: a target owning the text "ab", a source holding the
integer 7. -/
theorem value_ownership_c3_witness :
    ((Value.move_ctor (Value.mkDefault.set_int 7).1).2.own_data_ = false ∧
      (Value.move_ctor (Value.mkDefault.set_int 7).1).2.length_ = 0 ∧
      (((Value.move_ctor (Value.mkDefault.set_int 7).1).2).reset).2 = false) ∧
    ((Value.mkDefault.set_string (some ('a' :: 'b' :: [])) 0).1.set_value
      (Value.mkDefault.set_int 7).1).2 = true := by
  have h := value_ownership_c3 (Value.mkDefault.set_string (some ('a' :: 'b' :: [])) 0).1
    (Value.mkDefault.set_int 7).1 7 0 false none 0
  refine ⟨h.1, ?_⟩
  exact (h.2.2.2.2.2.2.2.2.2 (by decide)).mpr ⟨rfl, rfl, 'a' :: 'b' :: [], rfl⟩

/-- C4 counterexample.  The claim says get_boolean returns false for text that
does not parse as a number; but for the stored text "abc" (which neither stol
nor stof accepts) get_boolean returns true — the catch path returns
`pointer_value_ != nullptr`, and the stored pointer is non-null.  get_int and
get_float do return 0 as claimed. -/
theorem text_get_boolean_counterexample_c4 :
    stol_opt ("abc".toList) = none ∧ stof_opt ("abc".toList) = none ∧
      Value.get_int (Value.mkDefault.set_string (some ("abc".toList)) 0).1 = 0 ∧
      Value.get_float (Value.mkDefault.set_string (some ("abc".toList)) 0).1 = 0 ∧
      Value.get_boolean (Value.mkDefault.set_string (some ("abc".toList)) 0).1 = true ∧
      ¬ Value.get_boolean (Value.mkDefault.set_string (some ("abc".toList)) 0).1 = false := by
  refine ⟨by decide, by decide, by decide, by decide, by decide, ?_⟩
  intro hc
  exact absurd hc (by decide)

/-- C4 as amended.  For a Text value storing (non-null) bytes that parse as
no number — stol and stof both fail — get_int and get_float return 0, but
get_boolean returns true via the pointer-non-null fallback of both the
in-try fallthrough and the catch handler; it is false only for a null text
pointer. -/
theorem text_numeric_reads_c4 (v : Value) (s : List Char)
    (ha : v.attr_type_ = AttrType.CHARS) (hp : v.value_ = UnionVal.vptr (some s))
    (hl : stol_opt s = none) (hf : stof_opt s = none) :
    Value.get_int v = 0 ∧ Value.get_float v = 0 ∧ Value.get_boolean v = true := by
  unfold Value.get_int Value.get_float Value.get_boolean
  rw [ha, hp]
  dsimp only
  rw [hl, hf]
  exact ⟨rfl, rfl, rfl⟩

/-- Witness for C4 at the text "abc". -/
theorem text_numeric_reads_c4_witness :
    stol_opt ("abc".toList) = none ∧
      Value.get_int (Value.mkDefault.set_string (some ("abc".toList)) 0).1 = 0 ∧
      Value.get_float (Value.mkDefault.set_string (some ("abc".toList)) 0).1 = 0 ∧
      Value.get_boolean (Value.mkDefault.set_string (some ("abc".toList)) 0).1 = true :=
  ⟨by decide,
    text_numeric_reads_c4 (Value.mkDefault.set_string (some ("abc".toList)) 0).1
      ("abc".toList) (by decide) (by decide) (by decide) (by decide)⟩

/-- C2 bug record.  The claim (with the spec) requires set_value_from_str to
reject lexically malformed, calendar-invalid, or out-of-range date text with
an invalid-argument failure, leaving the output unset.  The implementation
validates nothing: on the calendar-invalid "2024-13-01" (which the strict —
and never called — parse_date_string accepts lexically but is_valid_date
rejects) it returns RC::SUCCESS and sets the output to a Date payload; its
own caller Value::get_date even handles the failure code that can never
come. -/
theorem set_value_from_str_no_validation_c2 :
    is_valid_date 2024 13 1 = false ∧
      DateType.parse_date_string ("2024-13-01".toList) = (RC.SUCCESS, 2024, 13, 1) ∧
      (DateType.set_value_from_str Value.mkDefault ("2024-13-01".toList)).1 = RC.SUCCESS ∧
      (DateType.set_value_from_str Value.mkDefault ("2024-13-01".toList)).2.attr_type_ =
        AttrType.DATES := by
  refine ⟨by decide, by decide, by decide, by decide⟩

/-- C10 counterexample.  The claim allows a Date-tagged result only for years
up to the cutoff around 2038; but check_date rejects only
`year > 2038 && month >= 2`, so the January date 2050-01-15 (year far past
2038) is still accepted and stored as a Date. -/
theorem try_set_date_cutoff_counterexample_c10 :
    check_date 2050 1 15 = true ∧
      (Value.try_set_date_from_string ("2050-01-15".toList) 10).attr_type_ =
        AttrType.DATES := by
  refine ⟨by decide, by decide⟩

/-- C10 as amended.  try_set_date_from_string yields the null Date (day count
-1) for empty input; for non-empty input it is Date-tagged exactly when
check_date accepts the sscanf("%4d-%2d-%2d") fields — year at least 1970 and
not (year > 2038 with month at least 2), so any January date up to year 9999
still passes — and otherwise (calendar-valid pre-1970 dates included) the raw
text is stored as a plain string value. -/
theorem try_set_date_from_string_c10 :
    (Value.try_set_date_from_string [] 0 =
      ⟨AttrType.DATES, 4, false, UnionVal.vint (-1)⟩) ∧
    (∀ (s : List Char) (len : Nat) (k : Nat) (y m d : Int), 0 < len →
      sscanf3 (some 4) (some 2) (some 2) s = (k, y, m, d) →
      ((Value.try_set_date_from_string s len).attr_type_ = AttrType.DATES ↔
        check_date y m d = true) ∧
      (check_date y m d = false → Value.try_set_date_from_string s len =
        (Value.mkDefault.set_string (some s) (len : Int)).1)) := by
  constructor
  · rfl
  · intro s len k y m d hlen hscan
    unfold Value.try_set_date_from_string
    rw [if_neg (by omega), hscan]
    dsimp only
    cases hc : check_date y m d
    · refine ⟨⟨fun hx => ?_, fun hx => nomatch hx⟩, fun hx => rfl⟩
      have hx2 : AttrType.CHARS = AttrType.DATES := hx
      exact nomatch hx2
    · exact ⟨⟨fun _ => rfl, fun _ => rfl⟩, fun hx => nomatch hx⟩

/-- Witness for C10: the pre-1970 calendar-valid date 1969-12-31 is stored as
a plain string, not a Date. -/
theorem try_set_date_from_string_c10_witness :
    check_date 1969 12 31 = false ∧
      Value.try_set_date_from_string ("1969-12-31".toList) 10 =
        (Value.mkDefault.set_string (some ("1969-12-31".toList)) (10 : Int)).1 :=
  ⟨by decide,
    ((try_set_date_from_string_c10.2 ("1969-12-31".toList) 10 3 1969 12 31
      (by decide) (by decide)).2) (by decide)⟩
